import Mathlib

/-!
Shallow embedding of the macos-voice-control repository's two core
components: the Relay Hub (backend/server.js) and the Narration Engine
(mac-server/server.js).  JavaScript strings are modelled as `List Char`
where prefix arithmetic matters (the transcript delta computation) and as
Lean `String` elsewhere; the stateful WebSocket handlers become explicit
state-passing functions returning an updated state together with a list of
observable effects (messages sent, sessions opened/ended, processes
killed, files unlinked).
-/

namespace VoiceControl

/-- Transcript text, modelled as a list of characters so that the
JavaScript operations `startsWith` and `substring(n)` become
`List.isPrefixOf` and `List.drop n`. -/
abbrev Str := List Char

/-! ## Relay Hub data model (backend/server.js) -/

/-- The transcript message built by the recognition data handler
(backend/server.js lines 185-191).  The `timestamp` field is wall-clock
and not modelled. -/
structure TranscriptMsg where
  transcript : Str
  delta : Str
  isFinal : Bool
deriving DecidableEq, Repr

/-- One result emitted by the upstream streaming-recognition session:
`data.results[0].alternatives[0].transcript` and `data.results[0].isFinal`
(backend/server.js lines 174-176). -/
structure RecogResult where
  transcript : Str
  isFinal : Bool
deriving DecidableEq, Repr

/-- A registered receiver (consumer): an entry of the `clients.receivers`
map, keyed by name, together with whether its socket is OPEN. -/
structure Receiver where
  name : String
  isOpen : Bool
deriving DecidableEq, Repr

/-- Control messages the Hub sends out. -/
inductive HubMsg where
  | transcriptMsg (m : TranscriptMsg)
  | info (text : String)
  | errorMsg (text : String)
  | helpAck
  | connectionMsg
  | forwardingStatus (b : Bool)
  | keyPressMsg (key : String)
  | ttsToggleMsg (enabled : Bool)
  | ttsState (enabled : Bool)
  | micStatusMsg (active : Bool)
  | ping (pingId : String)
  | serverStatusUpdate (sts : List (String × Bool))
deriving DecidableEq, Repr

/-- Observable effects of one Hub handler invocation. -/
inductive HubEff where
  | sendSelf (m : HubMsg)
  | sendReceiver (name : String) (m : HubMsg)
  | broadcastTranscribers (m : HubMsg)
  | register (clientType clientName : String)
  | openSession (sid : Nat) (sampleRate : Nat) (languageCode : String)
  | endSession (sid : Nat)
  | writeAudio (sid : Nat) (len : Nat)
  | closeConn (name : String)
deriving DecidableEq, Repr

/-- Delta computation of the recognition data handler
(backend/server.js lines 178-183): if the new transcript starts with the
previous one, the delta is the remainder; otherwise the whole transcript. -/
def computeDelta (previousTranscript transcript : Str) : Str :=
  if previousTranscript.isPrefixOf transcript then
    transcript.drop previousTranscript.length
  else
    transcript

/-- The recognition stream 'data' handler (backend/server.js lines
173-217): build the transcript message, send it to the originating
producer, fan it out to every open receiver when forwarding is enabled,
and update `previousTranscript` (reset to empty on a final result).
Returns the emitted message, the new `previousTranscript`, and the send
effects. -/
def onRecogData (forwardingEnabled : Bool) (receivers : List Receiver)
    (previousTranscript : Str) (r : RecogResult) :
    TranscriptMsg × Str × List HubEff :=
  let delta := computeDelta previousTranscript r.transcript
  let msg : TranscriptMsg := ⟨r.transcript, delta, r.isFinal⟩
  let fanout :=
    if forwardingEnabled then
      (receivers.filter (fun rc => rc.isOpen)).map
        (fun rc => HubEff.sendReceiver rc.name (.transcriptMsg msg))
    else []
  let newPrev := if r.isFinal then ([] : Str) else r.transcript
  (msg, newPrev, HubEff.sendSelf (.transcriptMsg msg) :: fanout)

/-! ## Relay Hub: per-connection state and message dispatch -/

/-- Per-connection mutable state of the Hub's `wss.on('connection')`
closure (backend/server.js lines 79-83).  The recognition stream handle
is modelled as an optional session id. -/
structure ConnState where
  clientType : String
  recognizeStream : Option Nat
  previousTranscript : Str
  forwardingEnabled : Bool
  audioSessionStarted : Bool
deriving DecidableEq, Repr

/-- Initial per-connection state (backend/server.js lines 79-83). -/
def initConn : ConnState :=
  { clientType := "transcriber"
    recognizeStream := none
    previousTranscript := []
    forwardingEnabled := true
    audioSessionStarted := false }

/-- The informational reply of the cost gate (backend/server.js
lines 142-145). -/
def costGateInfo : String :=
  "No receivers connected - speech recognition disabled to save costs"

/-- The 'start' message handler (backend/server.js lines 139-163): if no
receivers are registered, reply with an informational message and open no
session; otherwise open an upstream streaming session at the requested
sample rate (default 44100) and language (default en-US), storing a fresh
session id in `recognizeStream`. -/
def handleStart (receivers : List Receiver) (conn : ConnState)
    (sampleRate : Option Nat) (languageCode : Option String)
    (freshSid : Nat) : ConnState × List HubEff :=
  if receivers.length = 0 then
    (conn, [.sendSelf (.info costGateInfo)])
  else
    ({ conn with recognizeStream := some freshSid },
     [.openSession freshSid (sampleRate.getD 44100)
        (languageCode.getD "en-US")])

/-- The fixed emergency text of the help path (backend/server.js
lines 311-317). -/
def emergencyText : String :=
  "HELP BUTTON PRESSED: User cannot interact with system. User is locked out and can only use voice. Fix voice control immediately."

/-- The emergency transcript event: full text and delta both carry the
fixed text, and `isFinal` is true (backend/server.js lines 311-317). -/
def emergencyTranscript : TranscriptMsg :=
  ⟨emergencyText.data, emergencyText.data, true⟩

/-- The 'helpMessage' handler (backend/server.js lines 308-330): send the
emergency transcript to every open receiver, then acknowledge to the
sender.  It reads neither `forwardingEnabled` nor `recognizeStream`. -/
def handleHelp (receivers : List Receiver) : List HubEff :=
  ((receivers.filter (fun rc => rc.isOpen)).map
      (fun rc => HubEff.sendReceiver rc.name (.transcriptMsg emergencyTranscript)))
    ++ [.sendSelf .helpAck]

/-- Decoded JSON control messages, one constructor per `message.type`
branch of the ws 'message' handler (backend/server.js lines 117-374);
`unknown` is every unrecognized `type` value. -/
inductive InboundMsg where
  | identify (clientType clientName : Option String)
  | startMsg (sampleRate : Option Nat) (languageCode : Option String)
  | requestStatus
  | stopMsg
  | stopForwarding
  | startForwarding
  | keyPress (key : String)
  | ttsToggle (enabled : Bool)
  | ttsStateConfirm (enabled : Bool)
  | helpMessage
  | micStatus (active : Bool)
  | pong
  | logMsg
  | unknown (msgType : String)
deriving DecidableEq, Repr

/-- Raw inbound WebSocket data, as classified by the handler's branch
conditions: a binary buffer with its byte length, a JSON text that parses
to a control message, a text starting with a brace whose parse throws, or
any other text (silently ignored). -/
inductive RawData where
  | audio (len : Nat)
  | json (m : InboundMsg)
  | malformedJson (errText : String)
  | other (text : String)
deriving DecidableEq, Repr

/-- Result of one invocation of the ws 'message' handler.  `crashed` is
true only if an exception escaped the handler (the surrounding try/catch
makes this impossible), and `connectionClosed` only if the handler closed
the socket (no branch does). -/
structure DispatchResult where
  conn : ConnState
  effects : List HubEff
  connectionClosed : Bool
  crashed : Bool
deriving DecidableEq, Repr

/-- Dispatch over `message.type` (backend/server.js lines 117-374).
`statuses` stands in for the awaited `getServerStatuses()` result where a
handler sends it.  Registry mutation, forwarding to the Mac Server and
broadcasts are emitted as effects. -/
def dispatchMsg (receivers : List Receiver) (statuses : List (String × Bool))
    (conn : ConnState) (m : InboundMsg) (freshSid : Nat) :
    ConnState × List HubEff :=
  match m with
  | .identify ct cn =>
      let ctype := ct.getD "transcriber"
      let cname := cn.getD ctype
      ({ conn with clientType := ctype },
       [.register ctype cname, .sendSelf .connectionMsg])
  | .startMsg sr lc => handleStart receivers conn sr lc freshSid
  | .requestStatus => (conn, [.sendSelf (.serverStatusUpdate statuses)])
  | .stopMsg =>
      match conn.recognizeStream with
      | some sid =>
          ({ conn with recognizeStream := none, audioSessionStarted := false },
           [.endSession sid])
      | none => (conn, [])
  | .stopForwarding =>
      ({ conn with forwardingEnabled := false },
       [.sendSelf (.forwardingStatus false)])
  | .startForwarding =>
      ({ conn with forwardingEnabled := true },
       [.sendSelf (.forwardingStatus true)])
  | .keyPress k =>
      (conn,
       (receivers.filter (fun rc => rc.isOpen)).map
         (fun rc => HubEff.sendReceiver rc.name (.keyPressMsg k)))
  | .ttsToggle e =>
      match receivers.find? (fun rc => rc.name == "Mac Server") with
      | some rc =>
          if rc.isOpen then
            (conn, [.sendReceiver "Mac Server" (.ttsToggleMsg e)])
          else (conn, [.sendSelf (.errorMsg "Mac Server not connected")])
      | none => (conn, [.sendSelf (.errorMsg "Mac Server not connected")])
  | .ttsStateConfirm e => (conn, [.broadcastTranscribers (.ttsState e)])
  | .helpMessage => (conn, handleHelp receivers)
  | .micStatus a =>
      match receivers.find? (fun rc => rc.name == "Mac Server") with
      | some rc =>
          if rc.isOpen then
            (conn, [.sendReceiver "Mac Server" (.micStatusMsg a)])
          else (conn, [])
      | none => (conn, [])
  | .pong => (conn, [])
  | .logMsg => (conn, [])
  | .unknown _ => (conn, [])

/-- The ws 'message' handler with its surrounding try/catch
(backend/server.js lines 94-383).  A JSON parse failure is caught and
answered with an error envelope carrying the exception text; binary
buffers over 100 bytes are written to the recognition stream when one is
open; everything else falls through silently.  No branch closes the
connection or lets an exception escape. -/
def onRawMessage (receivers : List Receiver) (statuses : List (String × Bool))
    (conn : ConnState) (d : RawData) (freshSid : Nat) : DispatchResult :=
  match d with
  | .audio n =>
      if 100 < n then
        match conn.recognizeStream with
        | some sid =>
            ⟨{ conn with audioSessionStarted := true },
             [.writeAudio sid n], false, false⟩
        | none => ⟨{ conn with audioSessionStarted := true }, [], false, false⟩
      else ⟨conn, [], false, false⟩
  | .json m =>
      let (c, eff) := dispatchMsg receivers statuses conn m freshSid
      ⟨c, eff, false, false⟩
  | .malformedJson errText =>
      ⟨conn, [.sendSelf (.errorMsg errText)], false, false⟩
  | .other _ => ⟨conn, [], false, false⟩

/-! ## Relay Hub: liveness probe (getServerStatuses) -/

/-- The first message the probed consumer emits after the ping during one
probe round, as seen by the `once('message')` listener: either a pong
carrying some ping id, or any other message. -/
inductive ConsumerReply where
  | pongReply (pingId : String)
  | otherMsg
deriving DecidableEq, Repr

/-- Whether the probe resolves true (backend/server.js lines 46-62): the
first message after the ping must arrive before the 1000 ms timeout and
be a pong whose id matches; otherwise the timeout resolves false. -/
def probeResponsive (pingId : String)
    (firstReply : Option (Nat × ConsumerReply)) : Bool :=
  match firstReply with
  | some (delay, .pongReply pid) => decide (delay < 1000) && (pid == pingId)
  | some (_, .otherMsg) => false
  | none => false

/-- getServerStatuses (backend/server.js lines 35-73): Backend is always
up; the Mac Server entry starts false and is probed only when a receiver
named "Mac Server" is registered with an open socket.  `firstReply`
models the consumer's first message after the ping with its arrival
delay in milliseconds.  The probe never closes any connection. -/
def getServerStatuses (receivers : List Receiver) (pingId : String)
    (firstReply : Option (Nat × ConsumerReply)) :
    List (String × Bool) × List HubEff :=
  match receivers.find? (fun rc => rc.name == "Mac Server") with
  | some rc =>
      if rc.isOpen then
        ([("Backend", true), ("Mac Server", probeResponsive pingId firstReply)],
         [.sendReceiver "Mac Server" (.ping pingId)])
      else ([("Backend", true), ("Mac Server", false)], [])
  | none => ([("Backend", true), ("Mac Server", false)], [])

/-! ## Relay Hub: per-producer session lifecycle -/

/-- Events in the life of one producer connection.  `start` carries the
number of registered receivers at that moment; `upstreamError` is an
error emitted by the currently owned recognition stream (its handler
nulls the connection's handle). -/
inductive ProdEvent where
  | start (receiverCount : Nat) (sampleRate : Option Nat)
  | stop
  | upstreamError
  | disconnect
deriving DecidableEq, Repr

/-- Lifecycle state of one producer connection, with a ghost list of the
upstream sessions that were opened and have not yet been ended (by
`stop`/`close` calling `end()`) or terminated by their own upstream
error.  `nextSid` numbers sessions in creation order. -/
structure ProdState where
  recognizeStream : Option Nat
  liveSessions : List Nat
  nextSid : Nat
  closed : Bool
deriving DecidableEq, Repr

/-- Initial lifecycle state of a fresh producer connection. -/
def prodInit : ProdState :=
  { recognizeStream := none, liveSessions := [], nextSid := 0, closed := false }

/-- One lifecycle step.  'start' with receivers present assigns a fresh
upstream session to `recognizeStream` without ending a previously owned
one (backend/server.js line 163 overwrites the handle); 'stop' and
'disconnect' call `end()` on the owned stream; an upstream error both
terminates the erroring (owned) stream and nulls the handle
(backend/server.js lines 165-171, 226-232, 385-407). -/
def prodStep (s : ProdState) (e : ProdEvent) : ProdState :=
  if s.closed then s
  else
    match e with
    | .start n _ =>
        if n = 0 then s
        else
          { s with recognizeStream := some s.nextSid
                   liveSessions := s.liveSessions ++ [s.nextSid]
                   nextSid := s.nextSid + 1 }
    | .stop =>
        match s.recognizeStream with
        | some sid =>
            { s with recognizeStream := none
                     liveSessions := s.liveSessions.filter (fun x => x != sid) }
        | none => s
    | .upstreamError =>
        match s.recognizeStream with
        | some sid =>
            { s with recognizeStream := none
                     liveSessions := s.liveSessions.filter (fun x => x != sid) }
        | none => s
    | .disconnect =>
        match s.recognizeStream with
        | some sid =>
            { s with recognizeStream := none, closed := true
                     liveSessions := s.liveSessions.filter (fun x => x != sid) }
        | none => { s with closed := true }

/-- Run a producer connection over a list of events. -/
def prodRun (evs : List ProdEvent) : ProdState :=
  evs.foldl prodStep prodInit

/-- Decides that a trace never issues 'start' while a session handle is
already owned (and the receiver gate passes): the situation in which the
code overwrites the handle without ending the previous stream. -/
def noDoubleStart : ProdState → List ProdEvent → Bool
  | _, [] => true
  | s, e :: es =>
      (match e with
       | .start n _ => s.closed || decide (s.recognizeStream = none) || decide (n = 0)
       | _ => true) && noDoubleStart (prodStep s e) es

/-- The 1:1 ownership invariant: the live sessions are exactly the owned
handle, every live session id is below the allocation counter, and a
closed connection owns nothing. -/
def sessionInv (s : ProdState) : Prop :=
  s.liveSessions = s.recognizeStream.toList ∧
  (∀ sid ∈ s.liveSessions, sid < s.nextSid) ∧
  (s.closed = true → s.recognizeStream = none)

/-! ## Narration Engine (mac-server/server.js) -/

/-- One queued narration unit: `{ text, voice }` as pushed by `narrate`
(mac-server/server.js line 388). -/
structure NarrationItem where
  text : String
  voice : String
deriving DecidableEq, Repr

/-- The MacServer playback state (mac-server/server.js lines 42-53):
TTS-enabled flag, mic activity, drain-loop flag, FIFO queue, current
playback process handle (a pid), paused-audio artifact, socket openness,
and a counter allocating fresh pids. -/
structure MacState where
  ttsEnabled : Bool
  micActive : Bool
  isPlayingAudio : Bool
  audioQueue : List NarrationItem
  currentAudioProcess : Option Nat
  pausedAudioFile : Option String
  wsOpen : Bool
  nextPid : Nat
deriving DecidableEq, Repr

/-- Initial MacServer state (constructor, mac-server/server.js
lines 42-53). -/
def macInit : MacState :=
  { ttsEnabled := true, micActive := false, isPlayingAudio := false
    audioQueue := [], currentAudioProcess := none, pausedAudioFile := none
    wsOpen := true, nextPid := 0 }

/-- Observable effects of the Narration Engine. -/
inductive NEff where
  | killProcess (pid : Nat)
  | unlinkFile (file : String)
  | sendTtsConfirm (enabled : Bool)
  | synthStart (item : NarrationItem)
  | playStart (pid : Nat) (file : String)
deriving DecidableEq, Repr

/-- handleTTSToggle (mac-server/server.js lines 265-292): set the enabled
flag, kill any in-flight playback process, clear the queue, reset the
playing flag, remove the paused-audio artifact, and confirm the new state
over the socket when it is open.  The clearing happens for BOTH toggle
directions.  (The artifact is removed when the handle is set; the
`fs.existsSync` guard is modelled as the file existing.) -/
def handleTTSToggle (s : MacState) (enabled : Bool) : MacState × List NEff :=
  let killEff :=
    match s.currentAudioProcess with
    | some pid => [NEff.killProcess pid]
    | none => []
  let unlinkEff :=
    match s.pausedAudioFile with
    | some f => [NEff.unlinkFile f]
    | none => []
  let confirmEff := if s.wsOpen then [NEff.sendTtsConfirm enabled] else []
  ({ s with ttsEnabled := enabled, currentAudioProcess := none,
            audioQueue := [], isPlayingAudio := false, pausedAudioFile := none },
   killEff ++ unlinkEff ++ confirmEff)

/-- handleMicStatus (mac-server/server.js lines 294-319): record the new
mic state; when the mic becomes active, kill any in-flight playback
process, clear the queue, reset the playing flag and remove the paused
artifact.  When the mic becomes inactive the handler only logs. -/
def handleMicStatus (s : MacState) (active : Bool) : MacState × List NEff :=
  if active then
    let killEff :=
      match s.currentAudioProcess with
      | some pid => [NEff.killProcess pid]
      | none => []
    let unlinkEff :=
      match s.pausedAudioFile with
      | some f => [NEff.unlinkFile f]
      | none => []
    ({ s with micActive := true, currentAudioProcess := none,
              audioQueue := [], isPlayingAudio := false, pausedAudioFile := none },
     killEff ++ unlinkEff)
  else ({ s with micActive := false }, [])

/-- narrate (mac-server/server.js lines 380-396): when TTS is disabled
the call returns without queueing anything; otherwise the item is pushed
onto the queue, and the drain loop is invoked exactly when nothing is
playing and the mic is inactive.  The returned Bool records whether
`processAudioQueue()` was invoked. -/
def narrate (s : MacState) (item : NarrationItem) : MacState × Bool :=
  if !s.ttsEnabled then (s, false)
  else
    let s₁ := { s with audioQueue := s.audioQueue ++ [item] }
    if !s₁.isPlayingAudio && !s₁.micActive then (s₁, true) else (s₁, false)

/-- Suspension point of the single drain coroutine
(`processAudioQueue`, mac-server/server.js lines 398-420): not running,
awaiting the synthesis of a shifted item, or awaiting the completion of a
spawned playback process.  `overlapped` marks the unmodelled situation in
which a second coroutine would be started while one is suspended. -/
inductive DrainPC where
  | idle
  | awaitSynth (item : NarrationItem)
  | awaitPlay (file : String)
  | overlapped
deriving DecidableEq, Repr

/-- The `while` guard together with the loop body up to its first
suspension (mac-server/server.js lines 406-411): if the queue is
non-empty, TTS is enabled and the mic is inactive, shift the head item
and start synthesizing it; otherwise exit the loop and reset
`isPlayingAudio`. -/
def drainLoopCheck (s : MacState) : MacState × DrainPC × List NEff :=
  match s.audioQueue with
  | item :: rest =>
      if s.ttsEnabled && !s.micActive then
        ({ s with audioQueue := rest }, .awaitSynth item, [.synthStart item])
      else ({ s with isPlayingAudio := false }, .idle, [])
  | [] => ({ s with isPlayingAudio := false }, .idle, [])

/-- Entry of processAudioQueue (mac-server/server.js lines 398-404): an
empty queue resets `isPlayingAudio` and returns; otherwise the playing
flag is set and the loop is entered. -/
def invokeProcessAudioQueue (s : MacState) : MacState × DrainPC × List NEff :=
  match s.audioQueue with
  | [] => ({ s with isPlayingAudio := false }, .idle, [])
  | _ :: _ => drainLoopCheck { s with isPlayingAudio := true }

/-- The synchronous part of playAudio once synthesis produced a file
(mac-server/server.js lines 345-377): with TTS disabled or the mic
active the file is discarded and the loop continues; otherwise any stale
process is killed, a fresh playback process is spawned and the coroutine
suspends awaiting its completion. -/
def startPlayAudio (s : MacState) (file : String) :
    MacState × DrainPC × List NEff :=
  if !s.ttsEnabled || s.micActive then
    let (s', pc, eff) := drainLoopCheck s
    (s', pc, NEff.unlinkFile file :: eff)
  else
    let killEff :=
      match s.currentAudioProcess with
      | some pid => [NEff.killProcess pid]
      | none => []
    let pid := s.nextPid
    ({ s with currentAudioProcess := some pid, nextPid := pid + 1 },
     .awaitPlay file, killEff ++ [.playStart pid file])

/-- The playback-completion callback and the coroutine's resumption
(mac-server/server.js lines 363-374 then the loop re-check): unlink the
file, drop the process handle, and continue the drain loop.  The same
path runs when the process was killed by an interrupt, since the kill
fires the callback. -/
def finishPlayAudio (s : MacState) (file : String) :
    MacState × DrainPC × List NEff :=
  let (s', pc, eff) := drainLoopCheck { s with currentAudioProcess := none }
  (s', pc, NEff.unlinkFile file :: eff)

/-- A configuration of the Narration Engine: the shared state plus the
drain coroutine's suspension point. -/
structure NConfig where
  st : MacState
  pc : DrainPC
deriving DecidableEq, Repr

/-- External events driving the engine: the three inputs of the spec's
state machine plus the two asynchronous completions (synthesis result
and playback-process exit). -/
inductive NEvent where
  | evNarrate (item : NarrationItem)
  | evMicStatus (active : Bool)
  | evTtsToggle (enabled : Bool)
  | evSynthDone (ok : Bool) (file : String)
  | evPlayDone
deriving DecidableEq, Repr

/-- One step of the engine.  Handlers run atomically on the shared state
(the coroutine stays suspended); completions resume the coroutine.  A
`narrate` that passes its guard while a coroutine is already suspended
would start a second overlapping coroutine in the source; that
configuration is marked `overlapped` and absorbs all further events. -/
def nstep (c : NConfig) (e : NEvent) : NConfig × List NEff :=
  match e with
  | .evMicStatus a =>
      let (s', eff) := handleMicStatus c.st a
      (⟨s', c.pc⟩, eff)
  | .evTtsToggle en =>
      let (s', eff) := handleTTSToggle c.st en
      (⟨s', c.pc⟩, eff)
  | .evNarrate item =>
      let (s₁, drains) := narrate c.st item
      if drains then
        match c.pc with
        | .idle =>
            let (s₂, pc, eff) := invokeProcessAudioQueue s₁
            (⟨s₂, pc⟩, eff)
        | _ => (⟨s₁, .overlapped⟩, [])
      else (⟨s₁, c.pc⟩, [])
  | .evSynthDone ok file =>
      match c.pc with
      | .awaitSynth _ =>
          if ok then
            let (s', pc, eff) := startPlayAudio c.st file
            (⟨s', pc⟩, eff)
          else
            let (s', pc, eff) := drainLoopCheck c.st
            (⟨s', pc⟩, eff)
      | _ => (c, [])
  | .evPlayDone =>
      match c.pc with
      | .awaitPlay file =>
          let (s', pc, eff) := finishPlayAudio c.st file
          (⟨s', pc⟩, eff)
      | _ => (c, [])

/-- Run the engine over an event list, accumulating effects. -/
def nrun : NConfig → List NEvent → NConfig × List NEff
  | c, [] => (c, [])
  | c, e :: es =>
      let (c', eff) := nstep c e
      let (c'', effs) := nrun c' es
      (c'', eff ++ effs)

/-- If `l₁` is a (boolean) prefix of `l₂`, then appending the part of `l₂`
after `l₁.length` back onto `l₁` recovers `l₂`. -/
theorem isPrefixOf_append_drop :
    ∀ l₁ l₂ : Str, l₁.isPrefixOf l₂ = true → l₁ ++ l₂.drop l₁.length = l₂ := by
  intro l₁ l₂ h
  simp only [ List.isPrefixOf_iff_prefix] at h
  obtain ⟨t, rfl⟩ := h
  simp

/-- Claim C1: within one recognition session, the emitted transcript
event's delta equals the full text with the prefix `previousTranscript`
removed when the full text starts with it (so prepending the previous
transcript to the delta recovers the full text), and equals the full text
otherwise; and the stored previous transcript becomes empty on a final
result and the full text otherwise. -/
theorem c1_delta_invariant (prev full : Str) (fin fwd : Bool)
    (rcs : List Receiver) :
    (prev.isPrefixOf full = true →
        prev ++ (onRecogData fwd rcs prev ⟨full, fin⟩).1.delta = full) ∧
    (prev.isPrefixOf full = false →
        (onRecogData fwd rcs prev ⟨full, fin⟩).1.delta = full) ∧
    (onRecogData fwd rcs prev ⟨full, fin⟩).2.1 =
      (if fin then ([] : Str) else full) := by
  refine ⟨?_, ?_, rfl⟩
  · intro h
    simp only [onRecogData, computeDelta, h, if_true]
    exact isPrefixOf_append_drop prev full h
  · intro h
    simp [onRecogData, computeDelta, h]

/-- Witness for C1 at a concrete input: previous transcript "he", new
transcript "hey", non-final: the delta prepended to "he" gives back
"hey", and the stored previous transcript becomes "hey". -/
theorem c1_delta_invariant_witness :
    (['h', 'e'] : Str).isPrefixOf ['h', 'e', 'y'] = true ∧
    (['h', 'e'] : Str) ++
        (onRecogData true [] ['h', 'e'] ⟨['h', 'e', 'y'], false⟩).1.delta =
      ['h', 'e', 'y'] ∧
    (onRecogData true [] ['h', 'e'] ⟨['h', 'e', 'y'], false⟩).2.1 =
      ['h', 'e', 'y'] := by
  refine ⟨by decide, ?_, ?_⟩
  · exact (c1_delta_invariant ['h', 'e'] ['h', 'e', 'y'] false true []).1
      (by decide)
  · exact (c1_delta_invariant ['h', 'e'] ['h', 'e', 'y'] false true []).2.2

/-- Claim C2: immediately after a micStatus(active=true) event or a
ttsToggle(enabled=false) event is processed by the Narration Engine, the
queue is empty, `isPlayingAudio` is false, the process handle is dropped,
and any in-flight playback process has received a kill — for every prior
configuration. -/
theorem c2_queue_clear_invariant (c : NConfig) :
    ((nstep c (.evMicStatus true)).1.st.audioQueue = [] ∧
     (nstep c (.evMicStatus true)).1.st.isPlayingAudio = false ∧
     (nstep c (.evMicStatus true)).1.st.currentAudioProcess = none ∧
     (∀ pid, c.st.currentAudioProcess = some pid →
        NEff.killProcess pid ∈ (nstep c (.evMicStatus true)).2)) ∧
    ((nstep c (.evTtsToggle false)).1.st.audioQueue = [] ∧
     (nstep c (.evTtsToggle false)).1.st.isPlayingAudio = false ∧
     (nstep c (.evTtsToggle false)).1.st.currentAudioProcess = none ∧
     (∀ pid, c.st.currentAudioProcess = some pid →
        NEff.killProcess pid ∈ (nstep c (.evTtsToggle false)).2)) := by
  obtain ⟨⟨tts, mic, play, q, cur, paused, ws, np⟩, pc⟩ := c
  cases cur <;> cases paused <;>
    simp [nstep, handleMicStatus, handleTTSToggle]

/-- Witness for C2: a configuration that is mid-playback with a queued
item and process pid 7; both interrupt events empty the queue and kill
pid 7. -/
theorem c2_queue_clear_invariant_witness :
    (nstep ⟨⟨true, false, true, [⟨"a", "fable"⟩], some 7, none, true, 8⟩,
        .awaitPlay "f"⟩ (.evMicStatus true)).1.st.audioQueue = [] ∧
    NEff.killProcess 7 ∈
      (nstep ⟨⟨true, false, true, [⟨"a", "fable"⟩], some 7, none, true, 8⟩,
          .awaitPlay "f"⟩ (.evMicStatus true)).2 ∧
    NEff.killProcess 7 ∈
      (nstep ⟨⟨true, false, true, [⟨"a", "fable"⟩], some 7, none, true, 8⟩,
          .awaitPlay "f"⟩ (.evTtsToggle false)).2 := by
  refine ⟨(c2_queue_clear_invariant _).1.1, ?_, ?_⟩
  · exact (c2_queue_clear_invariant
      ⟨⟨true, false, true, [⟨"a", "fable"⟩], some 7, none, true, 8⟩,
        .awaitPlay "f"⟩).1.2.2.2 7 rfl
  · exact (c2_queue_clear_invariant
      ⟨⟨true, false, true, [⟨"a", "fable"⟩], some 7, none, true, 8⟩,
        .awaitPlay "f"⟩).2.2.2.2 7 rfl

/-- Counterexample to claim C3: processing ttsToggle(enabled=true) in a
state with a queued item and an in-flight process (pid 42) clears the
pending queue and kills the process, contrary to "re-arm only". -/
theorem c3_counterexample :
    (handleTTSToggle
        ⟨true, false, true, [⟨"hello", "fable"⟩], some 42, none, true, 1⟩
        true).1.audioQueue = [] ∧
    (handleTTSToggle
        ⟨true, false, true, [⟨"hello", "fable"⟩], some 42, none, true, 1⟩
        true).1.audioQueue ≠ [⟨"hello", "fable"⟩] ∧
    NEff.killProcess 42 ∈
      (handleTTSToggle
          ⟨true, false, true, [⟨"hello", "fable"⟩], some 42, none, true, 1⟩
          true).2 := by
  decide

/-- Claim C3 amended: processing ttsToggle(enabled=true) sets the enabled
flag but performs the same interrupt-and-clear as disabling — it clears
the pending queue, kills any in-flight playback process, resets
`isPlayingAudio` and the paused artifact, and confirms the state when the
socket is open; only `micActive`, `wsOpen` and `nextPid` are untouched. -/
theorem c3_amended (s : MacState) :
    (handleTTSToggle s true).1 =
      { s with ttsEnabled := true, audioQueue := [], isPlayingAudio := false,
               currentAudioProcess := none, pausedAudioFile := none } ∧
    (∀ pid, s.currentAudioProcess = some pid →
        NEff.killProcess pid ∈ (handleTTSToggle s true).2) ∧
    (s.wsOpen = true →
        NEff.sendTtsConfirm true ∈ (handleTTSToggle s true).2) := by
  obtain ⟨tts, mic, play, q, cur, paused, ws, np⟩ := s
  cases cur <;> cases paused <;> cases ws <;>
    simp [handleTTSToggle]

/-- Witness for C3 amended, at a state with process pid 42 in flight. -/
theorem c3_amended_witness :
    NEff.killProcess 42 ∈
      (handleTTSToggle
          ⟨true, false, true, [⟨"hello", "fable"⟩], some 42, none, true, 1⟩
          true).2 ∧
    NEff.sendTtsConfirm true ∈
      (handleTTSToggle
          ⟨true, false, true, [⟨"hello", "fable"⟩], some 42, none, true, 1⟩
          true).2 :=
  ⟨(c3_amended
      ⟨true, false, true, [⟨"hello", "fable"⟩], some 42, none, true, 1⟩).2.1
        42 rfl,
   (c3_amended
      ⟨true, false, true, [⟨"hello", "fable"⟩], some 42, none, true, 1⟩).2.2
        rfl⟩

/-- Counterexample to claim C4: a narrate call while TTS is disabled is a
no-op — the item is NOT appended to the queue. -/
theorem c4_counterexample :
    narrate ⟨false, false, false, [], none, none, true, 0⟩ ⟨"hello", "fable"⟩ =
      (⟨false, false, false, [], none, none, true, 0⟩, false) ∧
    (narrate ⟨false, false, false, [], none, none, true, 0⟩
        ⟨"hello", "fable"⟩).1.audioQueue ≠ [⟨"hello", "fable"⟩] := by
  decide

/-- Claim C4 amended: when narration is enabled, narrate(item) appends
the item to the queue; when narration is disabled the call is a no-op
(nothing is queued, no drain).  Draining begins exactly when, at the
call, narration is enabled, nothing is playing, and the mic is
inactive. -/
theorem c4_amended (s : MacState) (item : NarrationItem) :
    (s.ttsEnabled = true →
        (narrate s item).1.audioQueue = s.audioQueue ++ [item]) ∧
    (s.ttsEnabled = false → narrate s item = (s, false)) ∧
    ((narrate s item).2 = true ↔
        (s.ttsEnabled = true ∧ s.isPlayingAudio = false ∧
          s.micActive = false)) := by
  obtain ⟨tts, mic, play, q, cur, paused, ws, np⟩ := s
  cases tts <;> cases mic <;> cases play <;> simp [narrate]

/-- Witness for C4 amended: in the initial state (enabled, idle, mic off)
the item is appended and draining begins. -/
theorem c4_amended_witness :
    (narrate macInit ⟨"hello", "fable"⟩).1.audioQueue = [⟨"hello", "fable"⟩] ∧
    (narrate macInit ⟨"hello", "fable"⟩).2 = true :=
  ⟨(c4_amended macInit ⟨"hello", "fable"⟩).1 rfl,
   (c4_amended macInit ⟨"hello", "fable"⟩).2.2.mpr ⟨rfl, rfl, rfl⟩⟩

/-- Counterexample to claim C5: in the scenario narrate("hello") begins
playing, micStatus(true) kills the process (pid 0) and empties the queue,
narrate("world") while the mic is active queues without playing — but
after micStatus(false) arrives, "world" is still queued, the engine is
idle, and no synthesis or playback was ever started for it: it is NOT
played once micStatus(false) arrives. -/
theorem c5_counterexample :
    nrun ⟨macInit, .idle⟩
        [.evNarrate ⟨"hello", "fable"⟩, .evSynthDone true "f1",
         .evMicStatus true, .evPlayDone,
         .evNarrate ⟨"world", "nova"⟩, .evMicStatus false] =
      (⟨⟨true, false, false, [⟨"world", "nova"⟩], none, none, true, 1⟩, .idle⟩,
       [.synthStart ⟨"hello", "fable"⟩, .playStart 0 "f1",
        .killProcess 0, .unlinkFile "f1"]) ∧
    NEff.synthStart ⟨"world", "nova"⟩ ∉
      (nrun ⟨macInit, .idle⟩
        [.evNarrate ⟨"hello", "fable"⟩, .evSynthDone true "f1",
         .evMicStatus true, .evPlayDone,
         .evNarrate ⟨"world", "nova"⟩, .evMicStatus false]).2 := by
  decide

/-- Claim C5 amended: narrate(item1) begins playing (pid 0);
micStatus(true) kills the process and empties the queue; narrate(item2)
while the mic remains active is queued without being played;
micStatus(false) re-arms only — item2 stays queued and unplayed — and
item2 is finally played first (FIFO) when a later narrate call begins a
new drain. -/
theorem c5_amended (hi wi ni : NarrationItem) :
    (nrun ⟨macInit, .idle⟩ [.evNarrate hi, .evSynthDone true "f1"]).1 =
      ⟨⟨true, false, true, [], some 0, none, true, 1⟩, .awaitPlay "f1"⟩ ∧
    (nrun ⟨macInit, .idle⟩
        [.evNarrate hi, .evSynthDone true "f1", .evMicStatus true]).2 =
      [.synthStart hi, .playStart 0 "f1", .killProcess 0] ∧
    (nrun ⟨macInit, .idle⟩
        [.evNarrate hi, .evSynthDone true "f1", .evMicStatus true]).1.st =
      ⟨true, true, false, [], none, none, true, 1⟩ ∧
    (nrun ⟨macInit, .idle⟩
        [.evNarrate hi, .evSynthDone true "f1", .evMicStatus true,
         .evPlayDone, .evNarrate wi, .evMicStatus false]).1 =
      ⟨⟨true, false, false, [wi], none, none, true, 1⟩, .idle⟩ ∧
    nstep ⟨⟨true, false, false, [wi], none, none, true, 1⟩, .idle⟩
        (.evNarrate ni) =
      (⟨⟨true, false, true, [ni], none, none, true, 1⟩, .awaitSynth wi⟩,
       [.synthStart wi]) := by
  exact ⟨rfl, rfl, rfl, rfl, rfl⟩

/-- Claim C6: a 'start' message received while zero receivers are
registered opens no upstream session, answers with the informational
reply, and leaves the connection state (in particular the Idle session
handle) unchanged. -/
theorem c6_cost_gate (rcs : List Receiver) (conn : ConnState)
    (sr : Option Nat) (lc : Option String) (sid : Nat)
    (h : rcs.length = 0) :
    handleStart rcs conn sr lc sid =
      (conn, [.sendSelf (.info costGateInfo)]) ∧
    (∀ s rate l, HubEff.openSession s rate l ∉ (handleStart rcs conn sr lc sid).2) ∧
    (handleStart rcs conn sr lc sid).1.recognizeStream = conn.recognizeStream := by
  refine ⟨?_, ?_, ?_⟩ <;> simp [handleStart, h]

/-- Witness for C6: with no receivers and a fresh connection, 'start'
yields only the informational reply. -/
theorem c6_cost_gate_witness :
    handleStart [] initConn (some 16000) none 5 =
      (initConn, [.sendSelf (.info costGateInfo)]) :=
  (c6_cost_gate [] initConn (some 16000) none 5 rfl).1

/-- Counterexample to claim C7: after two consecutive 'start' events with
a receiver present, session 0 is still live but the producer owns
session 1 — a previously opened session is left alive but unowned, so it
is not the case that every live session is the owned one. -/
theorem c7_counterexample :
    (prodRun [.start 1 none, .start 1 none]).liveSessions = [0, 1] ∧
    (prodRun [.start 1 none, .start 1 none]).recognizeStream = some 1 ∧
    ¬ (∀ sid ∈ (prodRun [.start 1 none, .start 1 none]).liveSessions,
        (prodRun [.start 1 none, .start 1 none]).recognizeStream = some sid) := by
  decide

/-- Auxiliary: the ownership invariant holds initially. -/
theorem sessionInv_init : sessionInv prodInit := by
  refine ⟨rfl, ?_, fun h => rfl⟩
  intro sid h
  simp [prodInit] at h

/-- Auxiliary: one step preserves the ownership invariant provided a
'start' is only issued while no session is owned (or it is gated). -/
theorem sessionInv_step (s : ProdState) (e : ProdEvent)
    (hinv : sessionInv s)
    (hok : ∀ n sr, e = .start n sr →
        (s.closed = true ∨ s.recognizeStream = none ∨ n = 0)) :
    sessionInv (prodStep s e) := by
  obtain ⟨h1, h2, h3⟩ := hinv
  by_cases hc : s.closed = true
  · simpa [prodStep, hc] using ⟨h1, h2, h3⟩
  · have hcf : s.closed = false := by
      cases hcl : s.closed
      · rfl
      · exact absurd hcl hc
    cases e with
    | start n sr =>
        rcases hok n sr rfl with h | hr | hn
        · exact absurd h hc
        · by_cases hn : n = 0
          · simpa [prodStep, hcf, hn] using ⟨h1, h2, h3⟩
          · refine ⟨?_, ?_, ?_⟩
            · simp [prodStep, hcf, hn, h1, hr]
            · intro sid hsid
              simp [prodStep, hcf, hn, h1, hr] at hsid
              simp [prodStep, hcf, hn, hsid]
            · intro hcl
              simp [prodStep, hcf, hn] at hcl
        · simpa [prodStep, hcf, hn] using ⟨h1, h2, h3⟩
    | stop =>
        cases hr : s.recognizeStream with
        | none => simpa [prodStep, hcf, hr] using ⟨h1, h2, h3⟩
        | some sid =>
            refine ⟨?_, ?_, ?_⟩
            · simp [prodStep, hcf, hr, h1]
            · intro x hx
              simp [prodStep, hcf, hr, h1] at hx
            · intro hcl
              simp [prodStep, hcf, hr] at hcl
    | upstreamError =>
        cases hr : s.recognizeStream with
        | none => simpa [prodStep, hcf, hr] using ⟨h1, h2, h3⟩
        | some sid =>
            refine ⟨?_, ?_, ?_⟩
            · simp [prodStep, hcf, hr, h1]
            · intro x hx
              simp [prodStep, hcf, hr, h1] at hx
            · intro hcl
              simp [prodStep, hcf, hr] at hcl
    | disconnect =>
        cases hr : s.recognizeStream with
        | none =>
            have h1n : s.liveSessions = [] := by simpa [hr] using h1
            refine ⟨?_, ?_, fun _ => ?_⟩
            · simp [prodStep, hcf, hr, h1n]
            · intro x hx
              simp [prodStep, hcf, hr, h1n] at hx
            · simp [prodStep, hcf, hr]
        | some sid =>
            refine ⟨?_, ?_, fun _ => ?_⟩
            · simp [prodStep, hcf, hr, h1]
            · intro x hx
              simp [prodStep, hcf, hr, h1] at hx
            · simp [prodStep, hcf, hr]

/-- Auxiliary: the invariant is preserved along any trace that never
double-starts. -/
theorem sessionInv_run (evs : List ProdEvent) :
    ∀ s, sessionInv s → noDoubleStart s evs = true →
      sessionInv (evs.foldl prodStep s) := by
  induction evs with
  | nil =>
      intro s h _
      simpa using h
  | cons e es ih =>
      intro s h hnd
      simp only [noDoubleStart, Bool.and_eq_true] at hnd
      obtain ⟨he, hes⟩ := hnd
      refine ih (prodStep s e) (sessionInv_step s e h ?_) hes
      intro n sr heq
      subst heq
      simpa [Bool.or_eq_true, decide_eq_true_iff, or_assoc] using he

/-- Auxiliary: from an invariant state, each of stop, disconnect and
upstream error leaves no live session. -/
theorem endEvent_clears (s : ProdState) (hinv : sessionInv s) :
    (prodStep s .stop).liveSessions = [] ∧
    (prodStep s .disconnect).liveSessions = [] ∧
    (prodStep s .upstreamError).liveSessions = [] := by
  obtain ⟨h1, _, h3⟩ := hinv
  by_cases hc : s.closed = true
  · have := h3 hc
    refine ⟨?_, ?_, ?_⟩ <;> simp [prodStep, hc, h1, this]
  · have hcf : s.closed = false := by
      cases hcl : s.closed
      · rfl
      · exact absurd hcl hc
    cases hr : s.recognizeStream with
    | none => refine ⟨?_, ?_, ?_⟩ <;> simp [prodStep, hcf, hr, h1]
    | some sid => refine ⟨?_, ?_, ?_⟩ <;> simp [prodStep, hcf, hr, h1]

/-- Claim C7 amended: a producer owns at most one session handle, and
along any event sequence that never issues 'start' while a session is
already owned, the live upstream sessions are exactly the owned handle
and stop, disconnect or an upstream error destroy it (no live session
remains afterwards).  A second 'start' while streaming, however, replaces
the handle without ending the previous session, leaving it alive and
unowned (see the counterexample). -/
theorem c7_amended (evs : List ProdEvent)
    (h : noDoubleStart prodInit evs = true) :
    (prodRun evs).liveSessions = (prodRun evs).recognizeStream.toList ∧
    (prodStep (prodRun evs) .stop).liveSessions = [] ∧
    (prodStep (prodRun evs) .disconnect).liveSessions = [] ∧
    (prodStep (prodRun evs) .upstreamError).liveSessions = [] := by
  have hinv := sessionInv_run evs prodInit sessionInv_init h
  have hend := endEvent_clears (prodRun evs) hinv
  exact ⟨hinv.1, hend.1, hend.2.1, hend.2.2⟩

/-- Witness for C7 amended, on the trace start-stop-start with one
receiver registered. -/
theorem c7_amended_witness :
    noDoubleStart prodInit [.start 1 none, .stop, .start 1 none] = true ∧
    (prodRun [.start 1 none, .stop, .start 1 none]).liveSessions =
      (prodRun [.start 1 none, .stop, .start 1 none]).recognizeStream.toList ∧
    (prodStep (prodRun [.start 1 none, .stop, .start 1 none])
        .disconnect).liveSessions = [] :=
  ⟨by decide,
   (c7_amended [.start 1 none, .stop, .start 1 none] (by decide)).1,
   (c7_amended [.start 1 none, .stop, .start 1 none] (by decide)).2.2.1⟩

/-- Counterexample to claim C8: an unknown-type control message (here
with a receiver registered) produces NO reply at all — the sender is not
answered with an error envelope; it is only logged. -/
theorem c8_counterexample :
    (onRawMessage [⟨"Mac Server", true⟩] [] initConn
        (.json (.unknown "bogus")) 0).effects = [] ∧
    (onRawMessage [⟨"Mac Server", true⟩] [] initConn
        (.json (.unknown "bogus")) 0).connectionClosed = false := by
  decide

/-- Claim C8 amended: a malformed control message (JSON parse failure) is
answered with an error envelope, while an unknown-type message gets no
reply at all and is only logged; in both cases the connection stays open
and the Hub does not crash. -/
theorem c8_amended (receivers : List Receiver) (statuses : List (String × Bool))
    (conn : ConnState) (errText mtype : String) (sid : Nat) :
    onRawMessage receivers statuses conn (.malformedJson errText) sid =
      ⟨conn, [.sendSelf (.errorMsg errText)], false, false⟩ ∧
    onRawMessage receivers statuses conn (.json (.unknown mtype)) sid =
      ⟨conn, [], false, false⟩ :=
  ⟨rfl, rfl⟩

/-- Claim C9: on a helpMessage, every open receiver is sent the emergency
transcript (whose `isFinal` is true), the sender receives the
acknowledgment in the same handler invocation, and the produced effects
do not depend on the connection state (forwarding flag, open session or
anything else in `ConnState`). -/
theorem c9_help (receivers : List Receiver) (statuses : List (String × Bool))
    (conn : ConnState) (sid : Nat) :
    (∀ rc ∈ receivers, rc.isOpen = true →
        HubEff.sendReceiver rc.name (.transcriptMsg emergencyTranscript) ∈
          (onRawMessage receivers statuses conn (.json .helpMessage) sid).effects) ∧
    emergencyTranscript.isFinal = true ∧
    HubEff.sendSelf .helpAck ∈
      (onRawMessage receivers statuses conn (.json .helpMessage) sid).effects ∧
    (∀ conn₂ : ConnState,
        (onRawMessage receivers statuses conn₂ (.json .helpMessage) sid).effects =
          (onRawMessage receivers statuses conn (.json .helpMessage) sid).effects) := by
  refine ⟨?_, rfl, ?_, fun conn₂ => rfl⟩
  · intro rc hrc hopen
    show _ ∈ handleHelp receivers
    unfold handleHelp
    refine List.mem_append.mpr (Or.inl ?_)
    exact List.mem_map.mpr ⟨rc, List.mem_filter.mpr ⟨hrc, hopen⟩, rfl⟩
  · show HubEff.sendSelf .helpAck ∈ handleHelp receivers
    unfold handleHelp
    exact List.mem_append.mpr (Or.inr (by simp))

/-- Witness for C9: a single open receiver named "Mac Server" receives
the emergency transcript and the sender is acknowledged. -/
theorem c9_help_witness :
    HubEff.sendReceiver "Mac Server" (.transcriptMsg emergencyTranscript) ∈
      (onRawMessage [⟨"Mac Server", true⟩] [] initConn
          (.json .helpMessage) 0).effects ∧
    HubEff.sendSelf .helpAck ∈
      (onRawMessage [⟨"Mac Server", true⟩] [] initConn
          (.json .helpMessage) 0).effects :=
  ⟨(c9_help [⟨"Mac Server", true⟩] [] initConn 0).1 ⟨"Mac Server", true⟩
      (by decide) rfl,
   (c9_help [⟨"Mac Server", true⟩] [] initConn 0).2.2.1⟩

/-- Claim C10: during one probe round, a registered open consumer
"Mac Server" that never answers the ping with a matching pong within the
1000 ms window — whether it stays silent, answers with something else, or
delivers the matching pong only at or after the 1000 ms timeout — is
reported down — the status map carries exactly one "Mac Server" entry,
and it is false — and no connection is closed by the probe. -/
theorem c10_liveness_timeout (receivers : List Receiver) (pingId : String)
    (firstReply : Option (Nat × ConsumerReply))
    (hfind : receivers.find? (fun rc => rc.name == "Mac Server") =
      some ⟨"Mac Server", true⟩)
    (hnever : ∀ d, firstReply = some (d, .pongReply pingId) → 1000 ≤ d) :
    (getServerStatuses receivers pingId firstReply).1 =
      [("Backend", true), ("Mac Server", false)] ∧
    ((getServerStatuses receivers pingId firstReply).1.filter
        (fun p => p.1 == "Mac Server")).length = 1 ∧
    (getServerStatuses receivers pingId firstReply).2 =
      [.sendReceiver "Mac Server" (.ping pingId)] ∧
    (∀ name, HubEff.closeConn name ∉
        (getServerStatuses receivers pingId firstReply).2) := by
  have hresp : probeResponsive pingId firstReply = false := by
    cases firstReply with
    | none => rfl
    | some pr =>
        obtain ⟨d, r⟩ := pr
        cases r with
        | otherMsg => rfl
        | pongReply pid =>
            by_cases hpe : pid = pingId
            · subst hpe
              have hd : 1000 ≤ d := hnever d rfl
              have hlt : ¬ (d < 1000) := by omega
              simp [probeResponsive, hlt]
            · simp [probeResponsive, hpe]
  have h1 : getServerStatuses receivers pingId firstReply =
      ([("Backend", true), ("Mac Server", false)],
       [.sendReceiver "Mac Server" (.ping pingId)]) := by
    simp [getServerStatuses, hfind, hresp]
  have hs1 : (getServerStatuses receivers pingId firstReply).1 =
      [("Backend", true), ("Mac Server", false)] := by rw [h1]
  have hs2 : (getServerStatuses receivers pingId firstReply).2 =
      [.sendReceiver "Mac Server" (.ping pingId)] := by rw [h1]
  refine ⟨hs1, by rw [hs1]; decide, hs2, ?_⟩
  intro name
  rw [hs2]
  simp

/-- Witness for C10: "Mac Server" registered and open, its matching pong
arriving only after 1500 ms — past the 1000 ms timeout; it is reported
down and only the ping was sent. -/
theorem c10_liveness_timeout_witness :
    (getServerStatuses [⟨"Mac Server", true⟩] "42"
        (some (1500, .pongReply "42"))).1 =
      [("Backend", true), ("Mac Server", false)] ∧
    (getServerStatuses [⟨"Mac Server", true⟩] "42"
        (some (1500, .pongReply "42"))).2 =
      [.sendReceiver "Mac Server" (.ping "42")] :=
  ⟨(c10_liveness_timeout [⟨"Mac Server", true⟩] "42"
      (some (1500, .pongReply "42")) (by decide)
      (fun d h => by
        simp only [Option.some.injEq, Prod.mk.injEq] at h
        obtain ⟨h1, -⟩ := h
        omega)).1,
   (c10_liveness_timeout [⟨"Mac Server", true⟩] "42"
      (some (1500, .pongReply "42")) (by decide)
      (fun d h => by
        simp only [Option.some.injEq, Prod.mk.injEq] at h
        obtain ⟨h1, -⟩ := h
        omega)).2.2.1⟩

end VoiceControl
